import Mathlib

/-!
Verification of the 2x2x2 Rubik's cube solver (`RubiksSolver.cpp`).

The cube state is a fixed collection of six faces, each a 2x2 grid of
sticker colors (`_matrix[face][row][col]` in the source).  We embed each
face as a four-field structure (`c00 = _matrix[f][0][0]`, `c01 =
_matrix[f][0][1]`, `c10 = _matrix[f][1][0]`, `c11 = _matrix[f][1][1]`) and
the cube as a six-field structure in the source's face order
(TOP, FRONT, RIGHT, BOTTOM, BACK, LEFT).
-/

/-- The `Color` enum of the source: `RED, BLUE, ORANGE, GREEN, WHITE,
YELLOW, UNDEFINED` (in this order; `UNDEFINED` is used for unrecognized
input tokens). -/
inductive Color where
  | RED | BLUE | ORANGE | GREEN | WHITE | YELLOW | UNDEFINED
deriving DecidableEq, Repr

/-- The `Faces` enum of the source: `TOP, FRONT, RIGHT, BOTTOM, BACK,
LEFT, NONE` (in this order; the numeric value indexes `_matrix`). -/
inductive Faces where
  | TOP | FRONT | RIGHT | BOTTOM | BACK | LEFT | NONE
deriving DecidableEq, Repr

/-- The `Rotation` enum of the source:
`U, D, R, L, F, B, UI, DI, RI, LI, FI, BI, ROTATION_NONE`. -/
inductive Rotation where
  | U | D | R | L | F | B | UI | DI | RI | LI | FI | BI | ROTATION_NONE
deriving DecidableEq, Repr

/-- Numeric value of a `Faces` enumerator (its position, used as the
index into `_matrix`). -/
def faceIndex : Faces → Nat
  | .TOP => 0
  | .FRONT => 1
  | .RIGHT => 2
  | .BOTTOM => 3
  | .BACK => 4
  | .LEFT => 5
  | .NONE => 6

/-- Numeric value of a `Rotation` enumerator (its position in the enum). -/
def rotationIndex : Rotation → Nat
  | .U => 0 | .D => 1 | .R => 2 | .L => 3 | .F => 4 | .B => 5
  | .UI => 6 | .DI => 7 | .RI => 8 | .LI => 9 | .FI => 10 | .BI => 11
  | .ROTATION_NONE => 12

/-- The fixed inverse-rotation lookup table
`const Rotation inverseRotation[] = { UI, DI, RI, LI, FI, BI, U, D, R, L, F, B, ROTATION_NONE }`. -/
def inverseRotation : Rotation → Rotation
  | .U => .UI | .D => .DI | .R => .RI | .L => .LI | .F => .FI | .B => .BI
  | .UI => .U | .DI => .D | .RI => .R | .LI => .L | .FI => .F | .BI => .B
  | .ROTATION_NONE => .ROTATION_NONE

/-- The fixed axis lookup table
`const int rotationAxis[] = { 0, 0, 1, 1, 2, 2, 0, 0, 1, 1, 2, 2, -1 }`. -/
def rotationAxis : Rotation → Int
  | .U => 0 | .D => 0 | .R => 1 | .L => 1 | .F => 2 | .B => 2
  | .UI => 0 | .DI => 0 | .RI => 1 | .LI => 1 | .FI => 2 | .BI => 2
  | .ROTATION_NONE => -1

/-- The fixed base-face lookup table
`const int rotationBaseFace[] = { 0, 1, 2, 3, 4, 5, 0, 1, 2, 3, 4, 5, -1 }`. -/
def rotationBaseFace : Rotation → Int
  | .U => 0 | .D => 1 | .R => 2 | .L => 3 | .F => 4 | .B => 5
  | .UI => 0 | .DI => 1 | .RI => 2 | .LI => 3 | .FI => 4 | .BI => 5
  | .ROTATION_NONE => -1

/-- One 2x2 face of the cube: `cRC` is the sticker `_matrix[f][R][C]`. -/
structure Face where
  c00 : Color
  c01 : Color
  c10 : Color
  c11 : Color
deriving DecidableEq, Repr

/-- The sticker matrix of the whole cube: the six faces of `_matrix` in
enum order `TOP, FRONT, RIGHT, BOTTOM, BACK, LEFT`. -/
structure CubeM where
  top : Face
  front : Face
  right : Face
  bottom : Face
  back : Face
  left : Face
deriving DecidableEq, Repr

/-- A face whose four cells all hold color `c` (result of
`Cube::setColor(face, color)` on a whole face). -/
def uniformFace (c : Color) : Face := ⟨c, c, c, c⟩

/-- The matrix produced by `Cube::setColorsToInitState()`:
FRONT=BLUE, RIGHT=RED, TOP=YELLOW, BOTTOM=WHITE, BACK=GREEN, LEFT=ORANGE. -/
def initCubeM : CubeM :=
  { top := uniformFace .YELLOW
    front := uniformFace .BLUE
    right := uniformFace .RED
    bottom := uniformFace .WHITE
    back := uniformFace .GREEN
    left := uniformFace .ORANGE }

/-- `Cube::rotateFace(face, clockwise)`: declared `virtual` with an empty
body in `Cube`, and `Cube222` does not override it, so the virtual call in
`Cube222::applyRotationInternal` executes the empty base body.  The
executed code therefore leaves the matrix unchanged. -/
def rotateFace (_face : Faces) (_clockwise : Bool) (m : CubeM) : CubeM := m

/-- `Cube222::applyRotationInternal(r)`: the executed permutation effect of
one rotation on the sticker matrix.  Each branch first performs the
(no-op) `rotateFace` call of the source and then the side-strip cycle.
The source's sequential per-cell assignments through `tempRow` /
`tempColumn` / `tempTop` are equivalent to the simultaneous record update
written here (each cell is read before any overlapping write).
`ROTATION_NONE` matches no branch and leaves the matrix unchanged. -/
def applyRotationInternal (r : Rotation) (m : CubeM) : CubeM :=
  match r with
  | .U =>
      let m := rotateFace .TOP true m
      { m with
        front := { m.front with c00 := m.right.c00, c01 := m.right.c01 }
        right := { m.right with c00 := m.back.c00, c01 := m.back.c01 }
        back := { m.back with c00 := m.left.c00, c01 := m.left.c01 }
        left := { m.left with c00 := m.front.c00, c01 := m.front.c01 } }
  | .UI =>
      let m := rotateFace .TOP false m
      { m with
        front := { m.front with c00 := m.left.c00, c01 := m.left.c01 }
        left := { m.left with c00 := m.back.c00, c01 := m.back.c01 }
        back := { m.back with c00 := m.right.c00, c01 := m.right.c01 }
        right := { m.right with c00 := m.front.c00, c01 := m.front.c01 } }
  | .D =>
      let m := rotateFace .BOTTOM true m
      { m with
        front := { m.front with c10 := m.left.c10, c11 := m.left.c11 }
        left := { m.left with c10 := m.back.c10, c11 := m.back.c11 }
        back := { m.back with c10 := m.right.c10, c11 := m.right.c11 }
        right := { m.right with c10 := m.front.c10, c11 := m.front.c11 } }
  | .DI =>
      let m := rotateFace .BOTTOM false m
      { m with
        front := { m.front with c10 := m.right.c10, c11 := m.right.c11 }
        right := { m.right with c10 := m.back.c10, c11 := m.back.c11 }
        back := { m.back with c10 := m.left.c10, c11 := m.left.c11 }
        left := { m.left with c10 := m.front.c10, c11 := m.front.c11 } }
  | .L =>
      let m := rotateFace .LEFT true m
      { m with
        top := { m.top with c00 := m.back.c11, c10 := m.back.c01 }
        back := { m.back with c11 := m.bottom.c00, c01 := m.bottom.c10 }
        bottom := { m.bottom with c00 := m.front.c00, c10 := m.front.c10 }
        front := { m.front with c00 := m.top.c00, c10 := m.top.c10 } }
  | .LI =>
      let m := rotateFace .LEFT false m
      { m with
        top := { m.top with c00 := m.front.c00, c10 := m.front.c10 }
        front := { m.front with c00 := m.bottom.c00, c10 := m.bottom.c10 }
        bottom := { m.bottom with c00 := m.back.c11, c10 := m.back.c01 }
        back := { m.back with c11 := m.top.c00, c01 := m.top.c10 } }
  | .R =>
      let m := rotateFace .RIGHT true m
      { m with
        top := { m.top with c01 := m.front.c01, c11 := m.front.c11 }
        front := { m.front with c01 := m.bottom.c01, c11 := m.bottom.c11 }
        bottom := { m.bottom with c01 := m.back.c10, c11 := m.back.c00 }
        back := { m.back with c10 := m.top.c01, c00 := m.top.c11 } }
  | .RI =>
      let m := rotateFace .RIGHT false m
      { m with
        top := { m.top with c01 := m.back.c10, c11 := m.back.c00 }
        back := { m.back with c10 := m.bottom.c01, c00 := m.bottom.c11 }
        bottom := { m.bottom with c01 := m.front.c01, c11 := m.front.c11 }
        front := { m.front with c01 := m.top.c01, c11 := m.top.c11 } }
  | .F =>
      let m := rotateFace .FRONT true m
      { m with
        top := { m.top with c10 := m.left.c11, c11 := m.left.c01 }
        left := { m.left with c11 := m.bottom.c00, c01 := m.bottom.c01 }
        bottom := { m.bottom with c00 := m.right.c00, c01 := m.right.c10 }
        right := { m.right with c00 := m.top.c11, c10 := m.top.c10 } }
  | .FI =>
      let m := rotateFace .FRONT false m
      { m with
        top := { m.top with c10 := m.right.c00, c11 := m.right.c10 }
        right := { m.right with c00 := m.bottom.c01, c10 := m.bottom.c00 }
        bottom := { m.bottom with c01 := m.left.c11, c00 := m.left.c01 }
        left := { m.left with c11 := m.top.c10, c01 := m.top.c11 } }
  | .B =>
      let m := rotateFace .BACK true m
      { m with
        top := { m.top with c00 := m.left.c10, c01 := m.left.c00 }
        left := { m.left with c10 := m.bottom.c11, c00 := m.bottom.c10 }
        bottom := { m.bottom with c11 := m.right.c01, c10 := m.right.c11 }
        right := { m.right with c01 := m.top.c01, c11 := m.top.c00 } }
  | .BI =>
      let m := rotateFace .BACK false m
      { m with
        top := { m.top with c00 := m.right.c01, c01 := m.right.c11 }
        right := { m.right with c01 := m.bottom.c11, c11 := m.bottom.c10 }
        bottom := { m.bottom with c11 := m.left.c10, c10 := m.left.c00 }
        left := { m.left with c10 := m.top.c00, c00 := m.top.c01 } }
  | .ROTATION_NONE => m

/-- Whether all four cells of a face equal the face's reference cell
`[0][0]` (the inner double loop of `Cube::isSolved`, which compares every
cell -- including `[0][0]` itself -- against `face[0][0]`). -/
def faceUniform (f : Face) : Bool :=
  (f.c00 == f.c00) && (f.c01 == f.c00) && (f.c10 == f.c00) && (f.c11 == f.c00)

/-- `Cube::isSolved()`: the outer loop runs `f` from `0` to
`_cFace/2 - 1`, i.e. over the three faces `TOP, FRONT, RIGHT` only, and
checks that each is uniformly its own reference color. -/
def isSolved (m : CubeM) : Bool :=
  faceUniform m.top && faceUniform m.front && faceUniform m.right

/-- Number of cells of a face differing from the face's reference cell
`[0][0]` (inner loops of `Cube::heuristic`). -/
def misplacedFace (f : Face) : Nat :=
  (if f.c00 ≠ f.c00 then 1 else 0) + (if f.c01 ≠ f.c00 then 1 else 0) +
    (if f.c10 ≠ f.c00 then 1 else 0) + (if f.c11 ≠ f.c00 then 1 else 0)

/-- `Cube::heuristic()`: counts stickers differing from their face's
`[0][0]` reference over all six faces, then divides by 8 with integer
(floor) division. -/
def heuristic (m : CubeM) : Nat :=
  (misplacedFace m.top + misplacedFace m.front + misplacedFace m.right +
    misplacedFace m.bottom + misplacedFace m.back + misplacedFace m.left) / 8

/-- The character `'0' + color` appended by `Cube::getStateHash` for one
sticker. -/
def colorChar (c : Color) : Char :=
  match c with
  | .RED => '0' | .BLUE => '1' | .ORANGE => '2' | .GREEN => '3'
  | .WHITE => '4' | .YELLOW => '5' | .UNDEFINED => '6'

/-- The four hash characters of one face in row/column order. -/
def faceChars (f : Face) : List Char :=
  [colorChar f.c00, colorChar f.c01, colorChar f.c10, colorChar f.c11]

/-- `Cube::getStateHash()`: the serialization of all sticker colors in
flattened face/row/column order, one character `'0' + color` per sticker. -/
def getStateHash (m : CubeM) : List Char :=
  faceChars m.top ++ faceChars m.front ++ faceChars m.right ++
    faceChars m.bottom ++ faceChars m.back ++ faceChars m.left

/-- The 24 sticker colors of the cube in flattened face/row/column order. -/
def stickersList (m : CubeM) : List Color :=
  [m.top.c00, m.top.c01, m.top.c10, m.top.c11,
   m.front.c00, m.front.c01, m.front.c10, m.front.c11,
   m.right.c00, m.right.c01, m.right.c10, m.right.c11,
   m.bottom.c00, m.bottom.c01, m.bottom.c10, m.bottom.c11,
   m.back.c00, m.back.c01, m.back.c10, m.back.c11,
   m.left.c00, m.left.c01, m.left.c10, m.left.c11]

/-- The `allRotations` vector of the source:
`{ U, D, R, L, F, B, UI, DI, RI, LI, FI, BI }` (the 12 real rotations, in
the fixed canonical search order). -/
def allRotations : List Rotation :=
  [.U, .D, .R, .L, .F, .B, .UI, .DI, .RI, .LI, .FI, .BI]

/-- `Cube::isRedundantMove(lastMove, currentMove)`: move pruning.  Never
redundant after the `ROTATION_NONE` sentinel; redundant when `currentMove`
is the inverse of `lastMove`, when it repeats `lastMove`, or when both
moves share an axis and `lastMove`'s base face index is numerically
larger. -/
def isRedundantMove (lastMove currentMove : Rotation) : Bool :=
  if lastMove = .ROTATION_NONE then false
  else if inverseRotation lastMove = currentMove then true
  else if lastMove = currentMove then true
  else if rotationAxis lastMove = rotationAxis currentMove then
    rotationBaseFace lastMove > rotationBaseFace currentMove
  else false

/-- Apply a list of rotations to the matrix via
`Cube222::applyRotationInternal`, left to right. -/
def applyMovesM (p : List Rotation) (m : CubeM) : CubeM :=
  p.foldl (fun acc r => applyRotationInternal r acc) m

/-- Modelled from the spec (§3 "Solved predicate" and claim C2): all six
faces are within-face uniform.  This is the spec's notion of solved-ness,
written here only to compare it against the source's `isSolved`. -/
def specAllFacesUniform (m : CubeM) : Bool :=
  faceUniform m.top && faceUniform m.front && faceUniform m.right &&
    faceUniform m.bottom && faceUniform m.back && faceUniform m.left

/-- The clockwise 90-degree turn of a face's own four cells, as
implemented by `TestCube::rotateFace(face, true)` in
`RubiksSolverTests.cpp` (the repository's own statement of what a face
turn should do): `[0][0] <- [1][0]`, `[1][0] <- [1][1]`,
`[1][1] <- [0][1]`, `[0][1] <- [0][0]`. -/
def testRotateFaceCW (f : Face) : Face :=
  { c00 := f.c10, c01 := f.c00, c10 := f.c11, c11 := f.c01 }

/-- The observable state of a `Cube222`: the sticker matrix together with
the `_rotations` log (earliest rotation first; `push_back` appends at the
end). -/
structure CubeS where
  matrix : CubeM
  rotLog : List Rotation
deriving DecidableEq, Repr

/-- `Cube222::applyRotation(r)`: `applyRotationInternal(r)` followed by
`Cube::applyRotation(r)`, which appends `r` to the rotation log. -/
def applyRotation (r : Rotation) (c : CubeS) : CubeS :=
  { matrix := applyRotationInternal r c.matrix, rotLog := c.rotLog ++ [r] }

/-- `Cube222::undoRotation(r)`: applies the inverse rotation silently and
removes the last log entry if the log is non-empty. -/
def undoRotation (r : Rotation) (c : CubeS) : CubeS :=
  { matrix := applyRotationInternal (inverseRotation r) c.matrix
    rotLog := if c.rotLog = [] then c.rotLog else c.rotLog.dropLast }

/-- `Cube::applySolution(solution)`: applies each move of the solution in
order via `applyRotation`. -/
def applySolution (solution : List Rotation) (c : CubeS) : CubeS :=
  solution.foldl (fun acc r => applyRotation r acc) c

/-- The search-relevant state mutated by `Cube::idaStarRecursive`: the
success flag's value is returned, together with the cube, the
per-iteration visited-state set (`_visitedStates`, here a list of state
hashes) and the recorded solution (`_solution`). -/
structure SearchResult where
  found : Bool
  cube : CubeS
  visited : List (List Char)
  solution : Option (List Rotation)
deriving DecidableEq, Repr

/-- The `for (Rotation r : allRotations)` loop body of
`Cube::idaStarRecursive`, with `child` standing for the recursive call at
depth `currentDepth + 1`: skip redundant moves; otherwise apply the move,
push it on the path and recurse; on success return immediately (without
undoing), on failure undo the move and continue with the next rotation. -/
def searchMoves
    (child : CubeS → List (List Char) → Rotation → List Rotation → SearchResult)
    (lastMove : Rotation) (path : List Rotation) :
    CubeS → List (List Char) → List Rotation → SearchResult
  | cube, visited, [] => ⟨false, cube, visited, none⟩
  | cube, visited, r :: rest =>
    if isRedundantMove lastMove r then
      searchMoves child lastMove path cube visited rest
    else
      match child (applyRotation r cube) visited r (path ++ [r]) with
      | ⟨true, c2, v2, sol⟩ => ⟨true, c2, v2, sol⟩
      | ⟨false, c2, v2, _⟩ => searchMoves child lastMove path (undoRotation r c2) v2 rest

/-- `Cube::idaStarRecursive(currentDepth, depthLimit, lastMove, path)`:
if solved, record the path as the solution and succeed; prune when
`currentDepth + heuristic() > depthLimit` or when the state hash was
already visited in this iteration; otherwise insert the hash and try all
rotations.  `fuel` is a structural-recursion bound; the driver passes
`depthLimit + 2`, which the pruning rule makes sufficient: the recursion
only descends when `currentDepth ≤ depthLimit`, so no call is made at a
depth beyond `depthLimit + 1` and the `fuel = 0` branch is unreachable. -/
def idaStarRecursive :
    Nat → CubeS → List (List Char) → Nat → Nat → Rotation → List Rotation → SearchResult
  | 0, cube, visited, _, _, _, _ => ⟨false, cube, visited, none⟩
  | fuel + 1, cube, visited, currentDepth, depthLimit, lastMove, path =>
    if isSolved cube.matrix then ⟨true, cube, visited, some path⟩
    else if currentDepth + heuristic cube.matrix > depthLimit then
      ⟨false, cube, visited, none⟩
    else if getStateHash cube.matrix ∈ visited then ⟨false, cube, visited, none⟩
    else
      searchMoves
        (fun c v r p => idaStarRecursive fuel c v (currentDepth + 1) depthLimit r p)
        lastMove path cube (getStateHash cube.matrix :: visited) allRotations

/-- The initial depth limit of `Cube::idaStar`:
`depthLimit = heuristic(); if (depthLimit == 0) depthLimit = 1;`. -/
def initialDepthLimit (m : CubeM) : Nat :=
  if heuristic m = 0 then 1 else heuristic m

/-- The `while (!_solutionFound && depthLimit <= 20)` loop of
`Cube::idaStar`: each iteration clears the visited set and runs one
depth-first pass; on success the recorded solution is replayed on the
live cube via `applySolution` and returned; otherwise the depth limit is
incremented.  `fuel` is a structural-recursion bound; the driver passes
21, enough for every depth limit from 1 through the safety cap 20. -/
def idaStarLoop : Nat → CubeS → Nat → CubeS × Option (List Rotation)
  | 0, cube, _ => (cube, none)
  | fuel + 1, cube, depthLimit =>
    if depthLimit > 20 then (cube, none)
    else
      match idaStarRecursive (depthLimit + 2) cube [] 0 depthLimit .ROTATION_NONE [] with
      | ⟨true, c2, _, some sol⟩ => (applySolution sol c2, some sol)
      | ⟨true, c2, _, none⟩ => (c2, none)
      | ⟨false, c2, _, _⟩ => idaStarLoop fuel c2 (depthLimit + 1)

/-- `Cube::idaStar()`: immediate return on an already-solved cube,
otherwise the iterative-deepening loop starting at
`max(heuristic(), 1)`.  Returns the final live cube together with the
found solution (`none` models the "No solution found within depth
limit" exhaustion report, under which `_solutionFound` stays false). -/
def idaStar (cube : CubeS) : CubeS × Option (List Rotation) :=
  if isSolved cube.matrix then (cube, none)
  else idaStarLoop 21 cube (initialDepthLimit cube.matrix)

/-- The cell `_matrix[f][row][col]` for in-range `row`/`col` (the C++
indices are `int`s, embedded as `Int`). -/
def cellAt (f : Face) (row col : Int) : Color :=
  if row = 0 then (if col = 0 then f.c00 else f.c01)
  else (if col = 0 then f.c10 else f.c11)

/-- The `_matrix` face vector in index order. -/
def faceList (m : CubeM) : List Face :=
  [m.top, m.front, m.right, m.bottom, m.back, m.left]

/-- `Cube::getColor(face, row, col)`: `row` and `col` are bounds-checked
(`row >= 0 && row < _cRow && col >= 0 && col < _cCol`); on failure an
error is printed and the default `Color::WHITE` is returned.  The `face`
index is never checked: on an in-range `row`/`col` the code evaluates
`_matrix[face][row][col]`, and for a face index outside the 6-entry
vector this is an out-of-bounds `std::vector` access, i.e. undefined
behavior, embedded here as `none`. -/
def getColor (m : CubeM) (face : Faces) (row col : Int) : Option Color :=
  if 0 ≤ row ∧ row < 2 ∧ 0 ≤ col ∧ col < 2 then
    ((faceList m)[faceIndex face]?).map fun f => cellAt f row col
  else some Color.WHITE

/-- Overwrite the cell `[row][col]` of a face (in-range indices only). -/
def setCellAt (f : Face) (row col : Int) (color : Color) : Face :=
  if row = 0 then
    (if col = 0 then { f with c00 := color } else { f with c01 := color })
  else
    (if col = 0 then { f with c10 := color } else { f with c11 := color })

/-- `Cube::setColor(face, row, col, color)`: `row` and `col` are
bounds-checked; on failure an error is printed and the matrix is left
unchanged.  The `face` index is never checked: on an in-range
`row`/`col` the write `_matrix[face][row][col] = color` with a face
index outside the vector is undefined behavior, embedded as `none`. -/
def setColor (m : CubeM) (face : Faces) (row col : Int) (color : Color) : Option CubeM :=
  if 0 ≤ row ∧ row < 2 ∧ 0 ≤ col ∧ col < 2 then
    match face with
    | .TOP => some { m with top := setCellAt m.top row col color }
    | .FRONT => some { m with front := setCellAt m.front row col color }
    | .RIGHT => some { m with right := setCellAt m.right row col color }
    | .BOTTOM => some { m with bottom := setCellAt m.bottom row col color }
    | .BACK => some { m with back := setCellAt m.back row col color }
    | .LEFT => some { m with left := setCellAt m.left row col color }
    | .NONE => none
  else some m

/-- A concrete state whose TOP face holds four distinct colors (the other
faces are the initial coloring); used to exhibit that a rotation leaves
the rotated face's own cells unchanged. -/
def cubeDistinctTop : CubeM :=
  { initCubeM with top := ⟨.RED, .BLUE, .ORANGE, .GREEN⟩ }

/-- A concrete state that the source's `isSolved` accepts although its
BOTTOM face is not uniform: TOP/FRONT/RIGHT are uniform, BOTTOM holds
`WHITE WHITE / WHITE YELLOW`. -/
def cubeThreeUniform : CubeM :=
  { initCubeM with bottom := ⟨.WHITE, .WHITE, .WHITE, .YELLOW⟩ }

/-- A concrete state with `top[1][0] ≠ top[1][1]`, on which the
`F`-then-`FI` composite visibly fails to restore the state. -/
def cubeMixedTop : CubeM :=
  { initCubeM with top := ⟨.YELLOW, .YELLOW, .ORANGE, .BLUE⟩ }

/-- The scrambled live cube of the result-application scenario: the
sticker state after one `DI` on the initial coloring, with an empty
rotation log (as after configuring the stickers directly). -/
def cubeScrambledDI : CubeS :=
  { matrix := applyRotationInternal .DI initCubeM, rotLog := [] }

/-! ## Theorems -/

/-- Each face contributes at most 3 to the misplaced-sticker count, since
the reference cell `[0][0]` always matches itself. -/
theorem misplacedFace_le_three (f : Face) : misplacedFace f ≤ 3 := by
  unfold misplacedFace
  have h0 : (if f.c00 ≠ f.c00 then 1 else 0) = 0 := by simp
  rw [h0]
  split_ifs <;> omega

/-- A uniform face contributes 0 to the misplaced-sticker count. -/
theorem misplacedFace_eq_zero (f : Face) (h : faceUniform f = true) :
    misplacedFace f = 0 := by
  unfold faceUniform at h
  simp only [Bool.and_eq_true, beq_iff_eq] at h
  unfold misplacedFace
  simp [h.1.1.2, h.1.2, h.2]

/-- The heuristic never exceeds 2: at most 18 of the 24 stickers can be
misplaced, and `18 / 8 = 2`. -/
theorem heuristic_le_two (m : CubeM) : heuristic m ≤ 2 := by
  unfold heuristic
  have h1 := misplacedFace_le_three m.top
  have h2 := misplacedFace_le_three m.front
  have h3 := misplacedFace_le_three m.right
  have h4 := misplacedFace_le_three m.bottom
  have h5 := misplacedFace_le_three m.back
  have h6 := misplacedFace_le_three m.left
  omega

/-- If one of the three faces checked by `isSolved` is misplaced-free,
the heuristic is at most 1: the total misplaced count is then at most
`5 * 3 = 15` and `15 / 8 = 1`. -/
theorem heuristic_le_one (m : CubeM)
    (h : misplacedFace m.top = 0 ∨ misplacedFace m.front = 0 ∨ misplacedFace m.right = 0) :
    heuristic m ≤ 1 := by
  unfold heuristic
  have h1 := misplacedFace_le_three m.top
  have h2 := misplacedFace_le_three m.front
  have h3 := misplacedFace_le_three m.right
  have h4 := misplacedFace_le_three m.bottom
  have h5 := misplacedFace_le_three m.back
  have h6 := misplacedFace_le_three m.left
  rcases h with h | h | h <;> omega

/-- Claim C1: for every cube state and every one of the 12 rotations `r`,
`applyRotation(r)` permutes exactly the 4 cells of the rotated face by a
90-degree turn and cycles the adjacent strips, appending `r` to the log.
REFUTED on the code: `Cube::rotateFace` has an empty body and `Cube222`
never overrides it, so the rotated face's own 4 cells never change.  At
the concrete state `cubeDistinctTop` (TOP holding four distinct colors),
rotation `U` leaves the TOP face exactly as it was, which differs from
the 90-degree turn that the repository's own test implementation
(`TestCube::rotateFace`) prescribes. -/
theorem claimC1_face_cells_unrotated :
    (applyRotationInternal .U cubeDistinctTop).top = cubeDistinctTop.top ∧
      (applyRotationInternal .U cubeDistinctTop).top ≠ testRotateFaceCW cubeDistinctTop.top := by
  decide

/-- Claim C2, counterexample: `isSolved` returns `true` on the concrete
state `cubeThreeUniform` although its BOTTOM face is not uniform, so
`isSolved` is not equivalent to within-face uniformity of all six
faces. -/
theorem claimC2_counterexample :
    isSolved cubeThreeUniform = true ∧ specAllFacesUniform cubeThreeUniform = false := by
  decide

/-- Claim C2, amended: `isSolved()` returns `true` if and only if each of
the first `_cFace/2 = 3` faces (TOP, FRONT, RIGHT) has all 4 cells equal
to its own reference cell; the BOTTOM, BACK and LEFT faces are not
inspected. -/
theorem claimC2_amended (m : CubeM) :
    isSolved m = true ↔
      (m.top.c01 = m.top.c00 ∧ m.top.c10 = m.top.c00 ∧ m.top.c11 = m.top.c00) ∧
        (m.front.c01 = m.front.c00 ∧ m.front.c10 = m.front.c00 ∧ m.front.c11 = m.front.c00) ∧
        (m.right.c01 = m.right.c00 ∧ m.right.c10 = m.right.c00 ∧ m.right.c11 = m.right.c00) := by
  simp [isSolved, faceUniform, Bool.and_eq_true, and_assoc]

/-- Claim C5: applying a rotation and then its table inverse reproduces
the state exactly.  REFUTED on the code: the `F`/`B` branches of
`Cube222::applyRotationInternal` implement a single 8-cycle on the side
strips while `FI`/`BI` implement two 4-cycles, so `F` then `FI` is not
the identity.  At the concrete state `cubeMixedTop` it swaps
`top[1][0]` with `top[1][1]` (among other cells). -/
theorem claimC5_inverse_cancellation_fails :
    applyRotationInternal (inverseRotation .F) (applyRotationInternal .F cubeMixedTop) ≠
      cubeMixedTop := by
  decide

/-- Claim C8, counterexample: an out-of-range face index with in-range
row and column is not caught by any bounds check: the code indexes the
6-entry face vector out of bounds (undefined behavior, embedded as
`none`) instead of reporting an error and returning a default or leaving
the state unchanged. -/
theorem claimC8_counterexample :
    getColor initCubeM .NONE 0 0 = none ∧ setColor initCubeM .NONE 0 0 .RED = none := by
  decide

/-- Claim C8, amended: for every out-of-range row or column index,
`getColor` reports an error and returns the default `WHITE`, and
`setColor` reports an error and leaves the cube unchanged; the face
index is never bounds-checked. -/
theorem claimC8_amended (m : CubeM) (face : Faces) (row col : Int) (color : Color)
    (h : ¬(0 ≤ row ∧ row < 2 ∧ 0 ≤ col ∧ col < 2)) :
    getColor m face row col = some .WHITE ∧ setColor m face row col color = some m := by
  unfold getColor setColor
  rw [if_neg h, if_neg h]
  exact ⟨rfl, rfl⟩

/-- Witness for the amended claim C8, at row index 2 (out of range). -/
theorem claimC8_witness :
    getColor initCubeM .TOP 2 0 = some .WHITE ∧
      setColor initCubeM .TOP 2 0 .RED = some initCubeM :=
  claimC8_amended initCubeM .TOP 2 0 .RED (by decide)

/-- Claim C10: on the fixed 6-face 2x2 cube the heuristic is always
between 0 and 2 (each face's reference cell matches itself, so at most
18 stickers count as misplaced and `18 / 8 = 2`), and consequently the
IDA* depth-bound loop always starts at a depth limit of at most 2. -/
theorem claimC10_heuristic_bounds (m : CubeM) :
    heuristic m ≤ 2 ∧ initialDepthLimit m ≤ 2 := by
  refine ⟨heuristic_le_two m, ?_⟩
  unfold initialDepthLimit
  split
  · omega
  · exact heuristic_le_two m

/-- Claim C4: the heuristic is 0 on every solved cube state (solved in
the spec's sense: all six faces within-face uniform), and for every
scrambled cube state it never exceeds the number of rotations of any
sequence that reaches a state accepted by `isSolved` -- in particular it
never exceeds the true minimal number of rotations needed to reach a
solved state.  Key fact: every rotation leaves one of the three faces
checked by `isSolved` entirely untouched, so a state one move away from
solved has at most 15 misplaced stickers and heuristic at most 1. -/
theorem claimC4_heuristic_admissible (m : CubeM) (p : List Rotation) :
    (specAllFacesUniform m = true → heuristic m = 0) ∧
      (isSolved m = false → isSolved (applyMovesM p m) = true → heuristic m ≤ p.length) := by
  constructor
  · intro h
    simp only [specAllFacesUniform, Bool.and_eq_true] at h
    obtain ⟨⟨⟨⟨⟨h1, h2⟩, h3⟩, h4⟩, h5⟩, h6⟩ := h
    unfold heuristic
    rw [misplacedFace_eq_zero _ h1, misplacedFace_eq_zero _ h2, misplacedFace_eq_zero _ h3,
      misplacedFace_eq_zero _ h4, misplacedFace_eq_zero _ h5, misplacedFace_eq_zero _ h6]
  · intro hns hs
    rcases p with _ | ⟨r, _ | ⟨r2, rest⟩⟩
    · have hs' : isSolved m = true := hs
      rw [hs'] at hns
      cases hns
    · have hs' : isSolved (applyRotationInternal r m) = true := hs
      simp only [isSolved, Bool.and_eq_true] at hs'
      obtain ⟨⟨ht, hf⟩, hr⟩ := hs'
      have h1 : heuristic m ≤ 1 := by
        apply heuristic_le_one
        cases r <;>
          first
            | exact Or.inl (misplacedFace_eq_zero _ ht)
            | exact Or.inr (Or.inl (misplacedFace_eq_zero _ hf))
            | exact Or.inr (Or.inr (misplacedFace_eq_zero _ hr))
      exact h1
    · have h2 := heuristic_le_two m
      simp only [List.length_cons]
      omega

/-- Witness for claim C4: the initial coloring is solved with heuristic
0, and the state one `DI` away from the initial coloring (which `U`
returns to an `isSolved` state) has heuristic at most 1. -/
theorem claimC4_witness :
    heuristic initCubeM = 0 ∧ heuristic (applyRotationInternal .DI initCubeM) ≤ 1 :=
  ⟨(claimC4_heuristic_admissible initCubeM []).1 (by decide),
    (claimC4_heuristic_admissible (applyRotationInternal .DI initCubeM) [.U]).2
      (by decide) (by decide)⟩

/-- The serialization character `'0' + color` determines the color: the
seven enum values map to seven distinct characters. -/
theorem colorChar_eq_iff (a b : Color) : colorChar a = colorChar b ↔ a = b := by
  cases a <;> cases b <;> decide

/-- Claim C7: two cube states have equal state fingerprints
(`getStateHash`) if and only if every corresponding sticker cell holds
the same color. -/
theorem claimC7_fingerprint_sound (m1 m2 : CubeM) :
    getStateHash m1 = getStateHash m2 ↔ m1 = m2 := by
  constructor
  · intro h
    obtain ⟨⟨t1, t2, t3, t4⟩, ⟨f1, f2, f3, f4⟩, ⟨r1, r2, r3, r4⟩,
      ⟨b1, b2, b3, b4⟩, ⟨k1, k2, k3, k4⟩, ⟨l1, l2, l3, l4⟩⟩ := m1
    obtain ⟨⟨t1', t2', t3', t4'⟩, ⟨f1', f2', f3', f4'⟩, ⟨r1', r2', r3', r4'⟩,
      ⟨b1', b2', b3', b4'⟩, ⟨k1', k2', k3', k4'⟩, ⟨l1', l2', l3', l4'⟩⟩ := m2
    simp only [getStateHash, faceChars, List.cons_append, List.nil_append,
      List.cons.injEq, and_true, colorChar_eq_iff, and_assoc] at h
    simp only [CubeM.mk.injEq, Face.mk.injEq, and_assoc]
    exact h
  · intro h
    rw [h]

/-- Claim C6: for every cube state and every one of the 12 rotations, the
multiset of the 24 sticker colors is unchanged by
`applyRotationInternal`: rotations only permute stickers. -/
theorem claimC6_sticker_conservation (m : CubeM) (r : Rotation) (hr : r ∈ allRotations) :
    (↑(stickersList (applyRotationInternal r m)) : Multiset Color) = ↑(stickersList m) := by
  refine Multiset.coe_eq_coe.mpr ?_
  cases r <;>
    · refine List.perm_iff_count.mpr fun a => ?_
      simp only [stickersList, applyRotationInternal, rotateFace, List.count_cons,
        List.count_nil]
      try ring

/-- Witness for claim C6 at the rotation `U` on the initial coloring. -/
theorem claimC6_witness :
    (↑(stickersList (applyRotationInternal .U initCubeM)) : Multiset Color) =
      ↑(stickersList initCubeM) :=
  claimC6_sticker_conservation initCubeM .U (by decide)

/-- `searchMoves` only depends on the child function extensionally. -/
theorem searchMoves_congr
    {child₁ child₂ : CubeS → List (List Char) → Rotation → List Rotation → SearchResult}
    (hc : ∀ c v r p, child₁ c v r p = child₂ c v r p)
    (lastMove : Rotation) (path : List Rotation) :
    ∀ (moves : List Rotation) (cube : CubeS) (visited : List (List Char)),
      searchMoves child₁ lastMove path cube visited moves =
        searchMoves child₂ lastMove path cube visited moves := by
  intro moves
  induction moves with
  | nil => intro cube visited; rfl
  | cons r rest ih =>
    intro cube visited
    simp only [searchMoves]
    by_cases hred : isRedundantMove lastMove r = true
    · rw [if_pos hred, if_pos hred]
      exact ih cube visited
    · rw [if_neg hred, if_neg hred, hc]
      rcases hres : child₂ (applyRotation r cube) visited r (path ++ [r]) with ⟨found, c2, v2, s2⟩
      cases found
      · exact ih (undoRotation r c2) v2
      · rfl

/-- Fuel stability of the recursive search: any two fuel values at least
`depthLimit + 2 - currentDepth` give the same result, because the
pruning rule `currentDepth + heuristic > depthLimit` (with a
non-negative heuristic) stops every descent at depth `depthLimit + 1`.
This is the formal content of the search's termination argument. -/
theorem idaStarRecursive_fuel_stable :
    ∀ (fuel₁ fuel₂ d limit : Nat) (cube : CubeS) (visited : List (List Char))
      (last : Rotation) (path : List Rotation),
      d ≤ limit + 1 → limit + 2 ≤ d + fuel₁ → limit + 2 ≤ d + fuel₂ →
      idaStarRecursive fuel₁ cube visited d limit last path =
        idaStarRecursive fuel₂ cube visited d limit last path := by
  intro fuel₁
  induction fuel₁ with
  | zero =>
    intro fuel₂ d limit cube visited last path hd h1 h2
    exact absurd h1 (by omega)
  | succ k ih =>
    intro fuel₂ d limit cube visited last path hd h1 h2
    cases fuel₂ with
    | zero => exact absurd h2 (by omega)
    | succ j =>
      simp only [idaStarRecursive]
      by_cases hs : isSolved cube.matrix = true
      · rw [if_pos hs, if_pos hs]
      · rw [if_neg hs, if_neg hs]
        by_cases hp : d + heuristic cube.matrix > limit
        · rw [if_pos hp, if_pos hp]
        · rw [if_neg hp, if_neg hp]
          by_cases hv : getStateHash cube.matrix ∈ visited
          · rw [if_pos hv, if_pos hv]
          · rw [if_neg hv, if_neg hv]
            refine searchMoves_congr (fun c v r p => ?_) last path allRotations cube _
            exact ih j (d + 1) limit c v r p (by omega) (by omega) (by omega)

/-- If the per-move loop reports a solution, the solution came from a
child call, so its length obeys the child bound shifted by the one move
pushed onto the path. -/
theorem searchMoves_sol_bound
    {child : CubeS → List (List Char) → Rotation → List Rotation → SearchResult}
    {bound : Nat}
    (hc : ∀ c v r p s, (child c v r p).solution = some s → s.length + 1 ≤ p.length + bound)
    (lastMove : Rotation) (path : List Rotation) :
    ∀ (moves : List Rotation) (cube : CubeS) (visited : List (List Char)) (sol : List Rotation),
      (searchMoves child lastMove path cube visited moves).solution = some sol →
      sol.length ≤ path.length + bound := by
  intro moves
  induction moves with
  | nil => intro cube visited sol h; simp [searchMoves] at h
  | cons r rest ih =>
    intro cube visited sol h
    simp only [searchMoves] at h
    by_cases hred : isRedundantMove lastMove r = true
    · rw [if_pos hred] at h
      exact ih cube visited sol h
    · rw [if_neg hred] at h
      rcases hres : child (applyRotation r cube) visited r (path ++ [r]) with ⟨found, c2, v2, s2⟩
      rw [hres] at h
      cases found
      · exact ih (undoRotation r c2) v2 sol h
      · have hs2 : s2 = some sol := h
        have := hc (applyRotation r cube) visited r (path ++ [r]) sol (by rw [hres, hs2])
        simp only [List.length_append, List.length_cons, List.length_nil] at this
        omega

/-- Any solution recorded by the recursive search at depth `d` has length
at most `path.length + depthLimit + 1 - d`: success can only occur at a
node of depth at most `depthLimit + 1`, because the pruning rule stops
every deeper descent. -/
theorem idaStarRecursive_sol_bound :
    ∀ (fuel : Nat) (cube : CubeS) (visited : List (List Char)) (d limit : Nat)
      (last : Rotation) (path : List Rotation) (sol : List Rotation),
      d ≤ limit + 1 →
      (idaStarRecursive fuel cube visited d limit last path).solution = some sol →
      sol.length + d ≤ path.length + limit + 1 := by
  intro fuel
  induction fuel with
  | zero => intro cube visited d limit last path sol _ h; simp [idaStarRecursive] at h
  | succ k ih =>
    intro cube visited d limit last path sol hd h
    simp only [idaStarRecursive] at h
    by_cases hs : isSolved cube.matrix = true
    · rw [if_pos hs] at h
      have hps : path = sol := by simpa using h
      subst hps
      omega
    · rw [if_neg hs] at h
      by_cases hp : d + heuristic cube.matrix > limit
      · rw [if_pos hp] at h
        simp at h
      · rw [if_neg hp] at h
        by_cases hv : getStateHash cube.matrix ∈ visited
        · rw [if_pos hv] at h
          simp at h
        · rw [if_neg hv] at h
          have hdl : d ≤ limit := by omega
          have hmain :=
            @searchMoves_sol_bound _ (limit + 1 - d)
              (fun c v r p s hsol => by
                have := ih c v (d + 1) limit r p s (by omega) hsol
                omega)
              last path allRotations cube (getStateHash cube.matrix :: visited) sol h
          omega

/-- A solution returned by the depth-bound loop was found in a pass whose
bound passed the `depthLimit <= 20` guard, so it has length at most 21. -/
theorem idaStarLoop_sol_bound :
    ∀ (fuel : Nat) (cube : CubeS) (limit : Nat) (sol : List Rotation),
      (idaStarLoop fuel cube limit).2 = some sol → sol.length ≤ 21 := by
  intro fuel
  induction fuel with
  | zero => intro cube limit sol h; simp [idaStarLoop] at h
  | succ k ih =>
    intro cube limit sol h
    simp only [idaStarLoop] at h
    by_cases hl : limit > 20
    · rw [if_pos hl] at h
      simp at h
    · rw [if_neg hl] at h
      rcases hres : idaStarRecursive (limit + 2) cube [] 0 limit .ROTATION_NONE [] with
        ⟨found, c2, v2, s2⟩
      rw [hres] at h
      cases found
      · exact ih c2 (limit + 1) sol h
      · cases s2 with
        | none => simp at h
        | some s =>
          have hss : s = sol := by simpa using h
          subst hss
          have := idaStarRecursive_sol_bound (limit + 2) cube [] 0 limit .ROTATION_NONE [] s
            (by omega) (by rw [hres])
          simp only [List.length_nil] at this
          omega

/-- Claim C9: the IDA* search terminates for every initial cube state.
The first conjunct is the termination argument: the recursive descent is
insensitive to any structural-recursion fuel of at least
`depthLimit + 2 - currentDepth`, because depth plus the (non-negative)
heuristic exceeding the bound always prunes, so each pass visits only
finitely many nodes.  The second conjunct: the driver either returns a
solution -- found at some depth bound within the safety cap 20, hence of
length at most 21 -- or reports exhaustion (`none`). -/
theorem claimC9_search_terminates (cube : CubeS) (visited : List (List Char))
    (fuel d limit : Nat) (last : Rotation) (path : List Rotation)
    (hd : d ≤ limit + 1) (hfuel : limit + 2 ≤ d + fuel) :
    idaStarRecursive fuel cube visited d limit last path =
        idaStarRecursive (limit + 2 - d) cube visited d limit last path ∧
      ((∃ sol, (idaStar cube).2 = some sol ∧ sol.length ≤ 21) ∨ (idaStar cube).2 = none) := by
  constructor
  · exact idaStarRecursive_fuel_stable fuel (limit + 2 - d) d limit cube visited last path
      hd hfuel (by omega)
  · rcases hout : (idaStar cube).2 with _ | sol
    · exact Or.inr rfl
    · refine Or.inl ⟨sol, rfl, ?_⟩
      unfold idaStar at hout
      by_cases hs : isSolved cube.matrix = true
      · rw [if_pos hs] at hout
        simp at hout
      · rw [if_neg hs] at hout
        exact idaStarLoop_sol_bound 21 cube (initialDepthLimit cube.matrix) sol hout

/-- Witness for claim C9 at a concrete search configuration (the
`DI`-scrambled cube, depth 0, depth limit 1, fuel 3). -/
theorem claimC9_witness :
    idaStarRecursive 3 cubeScrambledDI [] 0 1 .ROTATION_NONE [] =
        idaStarRecursive (1 + 2 - 0) cubeScrambledDI [] 0 1 .ROTATION_NONE [] ∧
      ((∃ sol, (idaStar cubeScrambledDI).2 = some sol ∧ sol.length ≤ 21) ∨
        (idaStar cubeScrambledDI).2 = none) :=
  claimC9_search_terminates cubeScrambledDI [] 3 0 1 .ROTATION_NONE [] (by omega) (by omega)

/-- Claim C3: when `idaStar` finds a path, the live cube ends solved with
its rotation log equal to the winning path.  REFUTED on the code: on the
success path the recursion does not undo its moves, so the cube is
already at the solved state when `applySolution` replays the found path
on it.  Concretely, for the `DI`-scrambled cube the search finds the
winning path `[U]` (which does solve the scramble), yet the final live
cube is NOT solved and its rotation log holds the path twice. -/
theorem claimC3_result_application_bug :
    (idaStar cubeScrambledDI).2 = some [Rotation.U] ∧
      isSolved (applyMovesM [Rotation.U] cubeScrambledDI.matrix) = true ∧
      isSolved (idaStar cubeScrambledDI).1.matrix = false ∧
      (idaStar cubeScrambledDI).1.rotLog = [Rotation.U, Rotation.U] := by
  decide
